import Mathlib

/-!
Shallow embedding of the controller data-access layer of this repository
(`src/plc_handler.py`, class `PLCHandler`).

Modelling choices:
- Machine bytes are `Nat` values; reads from the device memory reduce modulo 256.
- The optionally-imported `snap7` library is modelled by the flag
  `Env.snap7Available` (in the source, `_S7Client_actual`/`_S7Util_actual`
  are either both module references or both `None`), and the environment
  variable `PLC_IP_ADDRESS` by `Env.hostConfigured`.
- The real transport (`snap7.client`) is external; its connect attempt is
  modelled by a `ConnectOutcome` parameter and its data faults by a `fault`
  flag, while a fault-free device is a byte memory `Mem`.
- Exceptions are modelled with `Except`: the source defines exactly two
  exception classes, `PLCConnectionError` and `PLCReadWriteError`
  (src/plc_handler.py lines 39-45); no validation-error class exists there.
- `snap7.util.get_bool/set_bool/get_int/set_int/get_real/set_real` are
  functions of an external library, not part of `src/`; they are modelled
  from the spec's TypedValueCodec contract (spec.md §4.3) and marked
  `Modelled from the spec:` below.  FLOAT32 values are represented by their
  32-bit IEEE-754 bit pattern (`0.0` is pattern `0`).
-/

/-- The two exception classes defined by `src/plc_handler.py` (lines 39-45):
`PLCConnectionError` and `PLCReadWriteError`.  The source defines no
validation-error exception. -/
inductive PLCError where
  | connectionError
  | readWriteError
deriving DecidableEq, Repr

/-- Import-time and configuration environment of the module:
whether `python-snap7` imported successfully (`_S7Client_actual`/`_S7Util_actual`
non-`None`) and whether `PLC_IP_ADDRESS` is configured and non-empty. -/
structure Env where
  snap7Available : Bool
  hostConfigured : Bool
deriving DecidableEq, Repr

/-- Outcome of one real-transport connect attempt
(`self.client.connect(...)` followed by `self.client.get_connected()`):
it succeeds, reports not-connected, raises `Snap7Exception`, or raises
some other exception. -/
inductive ConnectOutcome where
  | ok
  | notConnected
  | snap7Exn
  | otherExn
deriving DecidableEq, Repr

/-- The mutable fields of a `PLCHandler` instance: `self.client`
(abstracted to an optional handle id) and `self.is_connected`. -/
structure PLCState where
  client : Option Nat
  is_connected : Bool
deriving DecidableEq, Repr

/-- A fault-free real device's Data-Block memory: db number and byte
address to stored byte. -/
abbrev Mem := Nat → Nat → Nat

/-- Modelled from the spec: the byte-level core of `snap7.util.set_bool`
(external library, not in `src/`).  Per spec.md §4.3 `encode_bool_into`
"sets or clears only the targeted bit, leaving the remaining seven
untouched". -/
def set_bool_byte (b bit : Nat) (value : Bool) : Nat :=
  if b.testBit bit = value then b
  else if value then b + (1 <<< bit) else b - (1 <<< bit)

/-- Modelled from the spec: `snap7.util.get_bool(data, byte_index, bit)`
(external library, not in `src/`).  Per spec.md §4.3 `decode_bool`
"extract bit `bit_offset` (0 = least-significant) of `buf[0]`". -/
def get_bool (data : List Nat) (byte_index bit : Nat) : Bool :=
  (data.getD byte_index 0).testBit bit

/-- Modelled from the spec: `snap7.util.set_bool(data, byte_index, bit, value)`
(external library, not in `src/`): read-modify-write of the addressed byte,
touching only the targeted bit (spec.md §4.3). -/
def set_bool (data : List Nat) (byte_index bit : Nat) (value : Bool) : List Nat :=
  data.set byte_index (set_bool_byte (data.getD byte_index 0) bit value)

/-- Modelled from the spec: `snap7.util.get_int(data, byte_index)`
(external library, not in `src/`).  Per spec.md §4.3 `decode_int16`
"interpret exactly 2 bytes as big-endian two's-complement". -/
def get_int (data : List Nat) (byte_index : Nat) : Int :=
  let w : Nat := (data.getD byte_index 0) % 256 * 256 + (data.getD (byte_index + 1) 0) % 256
  if w < 32768 then (w : Int) else (w : Int) - 65536

/-- Modelled from the spec: `snap7.util.set_int(data, byte_index, value)`
(external library, not in `src/`).  Per spec.md §4.3 `encode_int16` is the
inverse big-endian two's-complement 2-byte encoding. -/
def set_int (data : List Nat) (byte_index : Nat) (value : Int) : List Nat :=
  let w : Nat := (value % 65536).toNat
  (data.set byte_index (w / 256)).set (byte_index + 1) (w % 256)

/-- Modelled from the spec: `snap7.util.get_real(data, byte_index)`
(external library, not in `src/`).  Per spec.md §4.3 `decode_float32`
interprets exactly 4 bytes as big-endian IEEE-754 single precision; the
FLOAT32 value is represented here by its 32-bit pattern, so the all-zero
buffer decodes to `0` (the pattern of `0.0`). -/
def get_real (data : List Nat) (byte_index : Nat) : Nat :=
  (data.getD byte_index 0) % 256 * 16777216 + (data.getD (byte_index + 1) 0) % 256 * 65536 +
    (data.getD (byte_index + 2) 0) % 256 * 256 + (data.getD (byte_index + 3) 0) % 256

/-- Modelled from the spec: `snap7.util.set_real(data, byte_index, value)`
(external library, not in `src/`): big-endian 4-byte encoding of the
FLOAT32 bit pattern (spec.md §4.3). -/
def set_real (data : List Nat) (byte_index : Nat) (pattern : Nat) : List Nat :=
  ((((data.set byte_index (pattern / 16777216 % 256)).set
      (byte_index + 1) (pattern / 65536 % 256)).set
      (byte_index + 2) (pattern / 256 % 256)).set
      (byte_index + 3) (pattern % 256))

/-- `PLCHandler.connect` (src/plc_handler.py lines 63-97).
If already connected, returns `True` immediately.  If snap7 is unavailable
or no IP is configured, simulates the connection (`is_connected := true`,
`client` untouched).  Otherwise attempts the real connect: on success the
client handle is stored and `is_connected` becomes the (true) result of
`get_connected()`; on `get_connected()` returning false the client is
destroyed, cleared, and `PLCConnectionError` is raised; on any exception
the client is cleared, `is_connected` set false, and `PLCConnectionError`
is raised. -/
def connect (env : Env) (co : ConnectOutcome) (s : PLCState) :
    PLCState × Except PLCError Bool :=
  if s.is_connected = true then (s, .ok true)
  else if env.snap7Available = false ∨ env.hostConfigured = false then
    ({ s with is_connected := true }, .ok true)
  else
    match co with
    | .ok => ({ client := some 0, is_connected := true }, .ok true)
    | .notConnected => ({ client := none, is_connected := false }, .error .connectionError)
    | .snap7Exn => ({ client := none, is_connected := false }, .error .connectionError)
    | .otherExn => ({ client := none, is_connected := false }, .error .connectionError)

/-- `PLCHandler.disconnect` (src/plc_handler.py lines 99-118).
Both connected branches (with or without a live client object) end with
`is_connected = False` and `client = None`; disconnect errors of the real
client are caught and only logged.  When not connected it is a no-op. -/
def disconnect (s : PLCState) : PLCState :=
  if s.is_connected = true ∧ s.client.isSome = true then
    { client := none, is_connected := false }
  else if s.is_connected = true then
    { client := none, is_connected := false }
  else s

/-- `PLCHandler._ensure_connection` (src/plc_handler.py lines 120-132).
If not connected, calls `connect()`; a `False` return becomes a
`PLCConnectionError`, and exceptions of `connect()` propagate. -/
def ensure_connection (env : Env) (co : ConnectOutcome) (s : PLCState) :
    PLCState × Except PLCError Unit :=
  if s.is_connected = false then
    match connect env co s with
    | (s', .ok b) => if b then (s', .ok ()) else (s', .error .connectionError)
    | (s', .error e) => (s', .error e)
  else (s, .ok ())

/-- `PLCHandler.read_db` (src/plc_handler.py lines 135-158).
After `_ensure_connection`, the simulated branch (snap7 missing, no client
object, or not connected) returns `size` zero bytes; the real branch
delegates to `client.db_read` — modelled by the fault flag and the device
memory — and wraps any transport exception as `PLCReadWriteError`. -/
def read_db (env : Env) (co : ConnectOutcome) (fault : Bool) (dev : Mem)
    (s : PLCState) (db start size : Nat) : PLCState × Except PLCError (List Nat) :=
  match ensure_connection env co s with
  | (s', .error e) => (s', .error e)
  | (s', .ok _) =>
      if env.snap7Available = false ∨ s'.client = none ∨ s'.is_connected = false then
        (s', .ok (List.replicate size 0))
      else if fault then (s', .error .readWriteError)
      else (s', .ok ((List.range size).map fun i => dev db (start + i) % 256))

/-- Effect of a successful `client.db_write(db, start, data)` on the
device's Data-Block memory. -/
def dbWriteMem (dev : Mem) (db start : Nat) (data : List Nat) : Mem :=
  fun d a =>
    if d = db ∧ start ≤ a ∧ a < start + data.length then data.getD (a - start) 0 % 256
    else dev d a

/-- `PLCHandler.write_db` (src/plc_handler.py lines 160-182).
After `_ensure_connection`, the simulated branch returns `True` without
touching any device; the real branch performs `client.db_write` and wraps
any transport exception as `PLCReadWriteError`. -/
def write_db (env : Env) (co : ConnectOutcome) (fault : Bool) (dev : Mem)
    (s : PLCState) (db start : Nat) (data : List Nat) :
    (PLCState × Mem) × Except PLCError Bool :=
  match ensure_connection env co s with
  | (s', .error e) => ((s', dev), .error e)
  | (s', .ok _) =>
      if env.snap7Available = false ∨ s'.client = none ∨ s'.is_connected = false then
        ((s', dev), .ok true)
      else if fault then ((s', dev), .error .readWriteError)
      else ((s', dbWriteMem dev db start data), .ok true)

/-- `PLCHandler.read_m` (src/plc_handler.py lines 184-196): like `read_db`
but against the flat Merker memory (area 0x83), which has no block number. -/
def read_m (env : Env) (co : ConnectOutcome) (fault : Bool) (mmem : Nat → Nat)
    (s : PLCState) (start size : Nat) : PLCState × Except PLCError (List Nat) :=
  match ensure_connection env co s with
  | (s', .error e) => (s', .error e)
  | (s', .ok _) =>
      if env.snap7Available = false ∨ s'.client = none ∨ s'.is_connected = false then
        (s', .ok (List.replicate size 0))
      else if fault then (s', .error .readWriteError)
      else (s', .ok ((List.range size).map fun i => mmem (start + i) % 256))

/-- Effect of a successful `client.write_area(0x83, 0, start, data)` on the
device's Merker memory. -/
def mWriteMem (mmem : Nat → Nat) (start : Nat) (data : List Nat) : Nat → Nat :=
  fun a =>
    if start ≤ a ∧ a < start + data.length then data.getD (a - start) 0 % 256
    else mmem a

/-- `PLCHandler.write_m` (src/plc_handler.py lines 198-210). -/
def write_m (env : Env) (co : ConnectOutcome) (fault : Bool) (mmem : Nat → Nat)
    (s : PLCState) (start : Nat) (data : List Nat) :
    (PLCState × (Nat → Nat)) × Except PLCError Bool :=
  match ensure_connection env co s with
  | (s', .error e) => ((s', mmem), .error e)
  | (s', .ok _) =>
      if env.snap7Available = false ∨ s'.client = none ∨ s'.is_connected = false then
        ((s', mmem), .ok true)
      else if fault then ((s', mmem), .error .readWriteError)
      else ((s', mWriteMem mmem start data), .ok true)

/-- `PLCHandler.read_real` (src/plc_handler.py lines 213-216): read 4 bytes
and decode, or return `0.0` (pattern `0`) when snap7 is unavailable. -/
def read_real (env : Env) (co : ConnectOutcome) (fault : Bool) (dev : Mem)
    (s : PLCState) (db off : Nat) : PLCState × Except PLCError Nat :=
  match read_db env co fault dev s db off 4 with
  | (s', .error e) => (s', .error e)
  | (s', .ok data) => (s', .ok (if env.snap7Available then get_real data 0 else 0))

/-- `PLCHandler.write_real` (src/plc_handler.py lines 218-222):
`bytearray(4)`, `set_real` when snap7 is available, then `write_db`. -/
def write_real (env : Env) (co : ConnectOutcome) (fault : Bool) (dev : Mem)
    (s : PLCState) (db off : Nat) (pattern : Nat) :
    (PLCState × Mem) × Except PLCError Bool :=
  let buffer := if env.snap7Available then set_real (List.replicate 4 0) 0 pattern
                else List.replicate 4 0
  write_db env co fault dev s db off buffer

/-- `PLCHandler.read_int` (src/plc_handler.py lines 224-227): read 2 bytes
and decode, or return `0` when snap7 is unavailable. -/
def read_int (env : Env) (co : ConnectOutcome) (fault : Bool) (dev : Mem)
    (s : PLCState) (db off : Nat) : PLCState × Except PLCError Int :=
  match read_db env co fault dev s db off 2 with
  | (s', .error e) => (s', .error e)
  | (s', .ok data) => (s', .ok (if env.snap7Available then get_int data 0 else 0))

/-- `PLCHandler.write_int` (src/plc_handler.py lines 229-233):
`bytearray(2)`, `set_int` when snap7 is available, then `write_db`. -/
def write_int (env : Env) (co : ConnectOutcome) (fault : Bool) (dev : Mem)
    (s : PLCState) (db off : Nat) (value : Int) :
    (PLCState × Mem) × Except PLCError Bool :=
  let buffer := if env.snap7Available then set_int (List.replicate 2 0) 0 value
                else List.replicate 2 0
  write_db env co fault dev s db off buffer

/-- `PLCHandler.read_bool` (src/plc_handler.py lines 235-238): read the
whole byte, then extract the bit, or return `False` when snap7 is
unavailable.  No address validation is performed. -/
def read_bool (env : Env) (co : ConnectOutcome) (fault : Bool) (dev : Mem)
    (s : PLCState) (db off bit : Nat) : PLCState × Except PLCError Bool :=
  match read_db env co fault dev s db off 1 with
  | (s', .error e) => (s', .error e)
  | (s', .ok data) => (s', .ok (if env.snap7Available then get_bool data 0 bit else false))

/-- The encode step of `PLCHandler.write_bool` (src/plc_handler.py lines
244-251): if the byte obtained by the read-modify-write read is an empty
buffer, it is replaced by `bytearray([0])`; then `set_bool` modifies the
target bit when snap7 is available. -/
def write_bool_encode (env : Env) (data : List Nat) (bit : Nat) (value : Bool) : List Nat :=
  let d := if data.length = 0 then [0] else data
  if env.snap7Available then set_bool d 0 bit value else d

/-- `PLCHandler.write_bool` (src/plc_handler.py lines 240-253): read the
current byte, defensively zero-fill an empty buffer, modify the one bit,
and write the byte back. -/
def write_bool (env : Env) (co : ConnectOutcome) (fault : Bool) (dev : Mem)
    (s : PLCState) (db off bit : Nat) (value : Bool) :
    (PLCState × Mem) × Except PLCError Bool :=
  match read_db env co fault dev s db off 1 with
  | (s', .error e) => ((s', dev), .error e)
  | (s', .ok data) => write_db env co fault dev s' db off (write_bool_encode env data bit value)

/-- `PLCHandler.__init__` (src/plc_handler.py lines 48-61):
start with `client = None`, `is_connected = False`, eagerly call
`connect()`, and catch exactly `PLCConnectionError`, forcing
`is_connected = False` in that case.  Any other exception would
propagate out of the constructor. -/
def init_result (env : Env) (co : ConnectOutcome) : Except PLCError PLCState :=
  match connect env co { client := none, is_connected := false } with
  | (s', .ok _) => .ok s'
  | (s', .error .connectionError) => .ok { s' with is_connected := false }
  | (_, .error e) => .error e

/-! ### Helper lemmas -/

set_option maxRecDepth 10000 in
set_option maxHeartbeats 2000000 in
theorem set_bool_byte_facts :
    ∀ b < 256, ∀ bit < 8, ∀ v : Bool,
      set_bool_byte b bit v < 256 ∧
      (set_bool_byte b bit v).testBit bit = v ∧
      ∀ i < 8, i ≠ bit → (set_bool_byte b bit v).testBit i = b.testBit i := by
  decide

theorem set_bool_byte_lt {b bit : Nat} (hb : b < 256) (hbit : bit < 8) (v : Bool) :
    set_bool_byte b bit v < 256 :=
  (set_bool_byte_facts b hb bit hbit v).1

theorem set_bool_byte_testBit_same {b bit : Nat} (hb : b < 256) (hbit : bit < 8) (v : Bool) :
    (set_bool_byte b bit v).testBit bit = v :=
  (set_bool_byte_facts b hb bit hbit v).2.1

theorem set_bool_byte_testBit_other {b bit i : Nat} (hb : b < 256) (hbit : bit < 8)
    (hi : i < 8) (hne : i ≠ bit) (v : Bool) :
    (set_bool_byte b bit v).testBit i = b.testBit i :=
  (set_bool_byte_facts b hb bit hbit v).2.2 i hi hne

theorem ensure_connection_of_connected (env : Env) (co : ConnectOutcome) (s : PLCState)
    (hs : s.is_connected = true) : ensure_connection env co s = (s, .ok ()) := by
  simp [ensure_connection, hs]

theorem read_db_connected (env : Env) (co : ConnectOutcome) (fault : Bool) (dev : Mem)
    (s : PLCState) (db start size : Nat)
    (ha : env.snap7Available = true) (hs : s.is_connected = true) (hc : s.client ≠ none) :
    read_db env co fault dev s db start size =
      if fault then (s, .error .readWriteError)
      else (s, .ok ((List.range size).map fun i => dev db (start + i) % 256)) := by
  rw [read_db, ensure_connection_of_connected env co s hs]
  simp [ha, hs, hc]

theorem write_db_connected (env : Env) (co : ConnectOutcome) (fault : Bool) (dev : Mem)
    (s : PLCState) (db start : Nat) (data : List Nat)
    (ha : env.snap7Available = true) (hs : s.is_connected = true) (hc : s.client ≠ none) :
    write_db env co fault dev s db start data =
      if fault then ((s, dev), .error .readWriteError)
      else ((s, dbWriteMem dev db start data), .ok true) := by
  rw [write_db, ensure_connection_of_connected env co s hs]
  simp [ha, hs, hc]

/-! ### Claims -/

/-- C5: `connect()` is idempotent: whenever the state already reports a
connection (`Connected`, i.e. a client handle is held, or `Simulated`,
i.e. `is_connected` without a client), a further `connect()` returns `true`
immediately and the state — connection resource included — is returned
entirely unchanged, whatever the environment or the would-be transport
outcome. -/
theorem connect_idempotent (env : Env) (co : ConnectOutcome) (s : PLCState)
    (h : s.is_connected = true) :
    connect env co s = (s, .ok true) := by
  simp [connect, h]

/-- Witness for C5 at both a `Connected`-shaped and a `Simulated`-shaped
concrete state. -/
theorem connect_idempotent_witness :
    connect ⟨true, true⟩ .snap7Exn ⟨some 0, true⟩ = (⟨some 0, true⟩, .ok true) ∧
    connect ⟨false, false⟩ .ok ⟨none, true⟩ = (⟨none, true⟩, .ok true) :=
  ⟨connect_idempotent ⟨true, true⟩ .snap7Exn ⟨some 0, true⟩ rfl,
   connect_idempotent ⟨false, false⟩ .ok ⟨none, true⟩ rfl⟩

/-- C6: when a real-transport connect attempt fails (the transport reports
not-connected, or raises), `connect()` raises `PLCConnectionError`, the
state remains disconnected (`is_connected = false`), and the partially
opened client handle is cleared to `none`. -/
theorem connect_failure_cleanup (env : Env) (co : ConnectOutcome) (s : PLCState)
    (hs : s.is_connected = false) (ha : env.snap7Available = true)
    (hh : env.hostConfigured = true) (hco : co ≠ .ok) :
    connect env co s = (⟨none, false⟩, .error .connectionError) := by
  cases co with
  | ok => exact absurd rfl hco
  | notConnected => simp [connect, hs, ha, hh]
  | snap7Exn => simp [connect, hs, ha, hh]
  | otherExn => simp [connect, hs, ha, hh]

/-- Witness for C6: a concrete failing connect attempt from the initial
state. -/
theorem connect_failure_cleanup_witness :
    connect ⟨true, true⟩ .snap7Exn ⟨none, false⟩ =
      (⟨none, false⟩, .error .connectionError) :=
  connect_failure_cleanup ⟨true, true⟩ .snap7Exn ⟨none, false⟩ rfl rfl rfl
    (by decide)

/-- The representation invariant relating the two mutable fields of a
`PLCHandler`: a disconnected instance holds no client handle. -/
def StateInv (s : PLCState) : Prop := s.is_connected = false → s.client = none

instance : DecidablePred StateInv := fun s => by unfold StateInv; infer_instance

theorem connect_fst_inv (env : Env) (co : ConnectOutcome) (s : PLCState)
    (h : StateInv s) : StateInv (connect env co s).1 := by
  unfold connect
  split
  · exact h
  · split
    · intro hco
      simp at hco
    · cases co <;> simp [StateInv]

theorem ensure_connection_fst_inv (env : Env) (co : ConnectOutcome) (s : PLCState)
    (h : StateInv s) : StateInv (ensure_connection env co s).1 := by
  unfold ensure_connection
  split
  · have h2 := connect_fst_inv env co s h
    rcases hc : connect env co s with ⟨s', r⟩
    rw [hc] at h2
    cases r with
    | ok b => cases b <;> simpa using h2
    | error e => simpa using h2
  · exact h

theorem read_db_fst (env : Env) (co : ConnectOutcome) (fault : Bool) (dev : Mem)
    (s : PLCState) (db start size : Nat) :
    (read_db env co fault dev s db start size).1 = (ensure_connection env co s).1 := by
  unfold read_db
  rcases h : ensure_connection env co s with ⟨s', r⟩
  cases r with
  | ok u => dsimp only; split <;> [rfl; split <;> rfl]
  | error e => rfl

theorem write_db_fst (env : Env) (co : ConnectOutcome) (fault : Bool) (dev : Mem)
    (s : PLCState) (db start : Nat) (data : List Nat) :
    (write_db env co fault dev s db start data).1.1 = (ensure_connection env co s).1 := by
  unfold write_db
  rcases h : ensure_connection env co s with ⟨s', r⟩
  cases r with
  | ok u => dsimp only; split <;> [rfl; split <;> rfl]
  | error e => rfl

theorem read_m_fst (env : Env) (co : ConnectOutcome) (fault : Bool) (mmem : Nat → Nat)
    (s : PLCState) (start size : Nat) :
    (read_m env co fault mmem s start size).1 = (ensure_connection env co s).1 := by
  unfold read_m
  rcases h : ensure_connection env co s with ⟨s', r⟩
  cases r with
  | ok u => dsimp only; split <;> [rfl; split <;> rfl]
  | error e => rfl

theorem write_m_fst (env : Env) (co : ConnectOutcome) (fault : Bool) (mmem : Nat → Nat)
    (s : PLCState) (start : Nat) (data : List Nat) :
    (write_m env co fault mmem s start data).1.1 = (ensure_connection env co s).1 := by
  unfold write_m
  rcases h : ensure_connection env co s with ⟨s', r⟩
  cases r with
  | ok u => dsimp only; split <;> [rfl; split <;> rfl]
  | error e => rfl

theorem read_db_fst_inv (env : Env) (co : ConnectOutcome) (fault : Bool) (dev : Mem)
    (s : PLCState) (db start size : Nat) (h : StateInv s) :
    StateInv (read_db env co fault dev s db start size).1 := by
  rw [read_db_fst]; exact ensure_connection_fst_inv env co s h

theorem write_db_fst_inv (env : Env) (co : ConnectOutcome) (fault : Bool) (dev : Mem)
    (s : PLCState) (db start : Nat) (data : List Nat) (h : StateInv s) :
    StateInv (write_db env co fault dev s db start data).1.1 := by
  rw [write_db_fst]; exact ensure_connection_fst_inv env co s h

theorem read_real_fst (env : Env) (co : ConnectOutcome) (fault : Bool) (dev : Mem)
    (s : PLCState) (db off : Nat) :
    (read_real env co fault dev s db off).1 = (read_db env co fault dev s db off 4).1 := by
  unfold read_real
  rcases h : read_db env co fault dev s db off 4 with ⟨s', r⟩
  cases r <;> rfl

theorem read_int_fst (env : Env) (co : ConnectOutcome) (fault : Bool) (dev : Mem)
    (s : PLCState) (db off : Nat) :
    (read_int env co fault dev s db off).1 = (read_db env co fault dev s db off 2).1 := by
  unfold read_int
  rcases h : read_db env co fault dev s db off 2 with ⟨s', r⟩
  cases r <;> rfl

theorem read_bool_fst (env : Env) (co : ConnectOutcome) (fault : Bool) (dev : Mem)
    (s : PLCState) (db off bit : Nat) :
    (read_bool env co fault dev s db off bit).1 = (read_db env co fault dev s db off 1).1 := by
  unfold read_bool
  rcases h : read_db env co fault dev s db off 1 with ⟨s', r⟩
  cases r <;> rfl

theorem write_bool_fst_inv (env : Env) (co : ConnectOutcome) (fault : Bool) (dev : Mem)
    (s : PLCState) (db off bit : Nat) (v : Bool) (h : StateInv s) :
    StateInv (write_bool env co fault dev s db off bit v).1.1 := by
  unfold write_bool
  have h1 := read_db_fst_inv env co fault dev s db off 1 h
  rcases hr : read_db env co fault dev s db off 1 with ⟨s', r⟩
  rw [hr] at h1
  cases r with
  | ok data => exact write_db_fst_inv env co fault dev s' db off _ h1
  | error e => exact h1

theorem init_result_cases (env : Env) (co : ConnectOutcome) :
    init_result env co = .ok ⟨none, true⟩ ∨ init_result env co = .ok ⟨some 0, true⟩ ∨
    init_result env co = .ok ⟨none, false⟩ := by
  rcases env with ⟨a, b⟩
  cases a <;> cases b <;> cases co <;>
    first
    | exact Or.inl rfl
    | exact Or.inr (Or.inl rfl)
    | exact Or.inr (Or.inr rfl)

/-- C9: the invariant `is_connected = false → client = none` — no live
transport handle is retained while the instance reports itself
disconnected — holds for every state the constructor produces, and is
preserved by `connect`, `disconnect`, and every read and write operation. -/
theorem public_ops_preserve_inv (env : Env) (co : ConnectOutcome) (fault : Bool)
    (dev : Mem) (mmem : Nat → Nat) (s : PLCState) (db start size bit : Nat)
    (data : List Nat) (v : Bool) (iv : Int) (p : Nat) (h : StateInv s) :
    (∀ s0, init_result env co = .ok s0 → StateInv s0) ∧
    StateInv (connect env co s).1 ∧
    StateInv (disconnect s) ∧
    StateInv (read_db env co fault dev s db start size).1 ∧
    StateInv (write_db env co fault dev s db start data).1.1 ∧
    StateInv (read_m env co fault mmem s start size).1 ∧
    StateInv (write_m env co fault mmem s start data).1.1 ∧
    StateInv (read_real env co fault dev s db start).1 ∧
    StateInv (write_real env co fault dev s db start p).1.1 ∧
    StateInv (read_int env co fault dev s db start).1 ∧
    StateInv (write_int env co fault dev s db start iv).1.1 ∧
    StateInv (read_bool env co fault dev s db start bit).1 ∧
    StateInv (write_bool env co fault dev s db start bit v).1.1 := by
  refine ⟨?_, connect_fst_inv env co s h, ?_, read_db_fst_inv env co fault dev s db start size h,
    write_db_fst_inv env co fault dev s db start data h, ?_, ?_, ?_, ?_, ?_, ?_, ?_,
    write_bool_fst_inv env co fault dev s db start bit v h⟩
  · intro s0 h0
    rcases init_result_cases env co with hc | hc | hc <;> rw [hc] at h0 <;>
      cases h0 <;> decide
  · unfold disconnect
    split
    · intro _; rfl
    · split
      · intro _; rfl
      · exact h
  · rw [read_m_fst]; exact ensure_connection_fst_inv env co s h
  · rw [write_m_fst]; exact ensure_connection_fst_inv env co s h
  · rw [read_real_fst]; exact read_db_fst_inv env co fault dev s db start 4 h
  · unfold write_real
    exact write_db_fst_inv env co fault dev s db start _ h
  · rw [read_int_fst]; exact read_db_fst_inv env co fault dev s db start 2 h
  · unfold write_int
    exact write_db_fst_inv env co fault dev s db start _ h
  · rw [read_bool_fst]; exact read_db_fst_inv env co fault dev s db start 1 h

/-- Witness for C9 at a concrete environment and state. -/
theorem public_ops_preserve_inv_witness :
    (∀ s0, init_result ⟨true, true⟩ .snap7Exn = .ok s0 → StateInv s0) ∧
    StateInv (connect ⟨true, true⟩ .snap7Exn ⟨some 0, true⟩).1 ∧
    StateInv (disconnect ⟨some 0, true⟩) ∧
    StateInv (read_db ⟨true, true⟩ .snap7Exn false (fun _ _ => 0) ⟨some 0, true⟩ 1 0 2).1 ∧
    StateInv (write_db ⟨true, true⟩ .snap7Exn false (fun _ _ => 0) ⟨some 0, true⟩ 1 0 [7]).1.1 ∧
    StateInv (read_m ⟨true, true⟩ .snap7Exn false (fun _ => 0) ⟨some 0, true⟩ 0 2).1 ∧
    StateInv (write_m ⟨true, true⟩ .snap7Exn false (fun _ => 0) ⟨some 0, true⟩ 0 [7]).1.1 ∧
    StateInv (read_real ⟨true, true⟩ .snap7Exn false (fun _ _ => 0) ⟨some 0, true⟩ 1 0).1 ∧
    StateInv (write_real ⟨true, true⟩ .snap7Exn false (fun _ _ => 0) ⟨some 0, true⟩ 1 0 3).1.1 ∧
    StateInv (read_int ⟨true, true⟩ .snap7Exn false (fun _ _ => 0) ⟨some 0, true⟩ 1 0).1 ∧
    StateInv (write_int ⟨true, true⟩ .snap7Exn false (fun _ _ => 0) ⟨some 0, true⟩ 1 0 5).1.1 ∧
    StateInv (read_bool ⟨true, true⟩ .snap7Exn false (fun _ _ => 0) ⟨some 0, true⟩ 1 0 3).1 ∧
    StateInv (write_bool ⟨true, true⟩ .snap7Exn false (fun _ _ => 0) ⟨some 0, true⟩ 1 0 3 true).1.1 :=
  public_ops_preserve_inv ⟨true, true⟩ .snap7Exn false (fun _ _ => 0) (fun _ => 0)
    ⟨some 0, true⟩ 1 0 2 3 [7] true 5 3 (by decide)

/-- C10: constructing a `PLCHandler` never propagates a connection failure:
`__init__` eagerly calls `connect()` and catches `PLCConnectionError`, so
even for a real configuration whose connect attempt fails, construction
yields a state (here `⟨none, false⟩`: disconnected, no handle); construction
succeeds for every configuration and outcome; and from that disconnected
state the next data operation's `_ensure_connection` performs exactly the
fresh `connect()` attempt (its state and result are those of `connect`). -/
theorem init_catches_connect_failure (env : Env) (co : ConnectOutcome)
    (ha : env.snap7Available = true) (hh : env.hostConfigured = true)
    (hco : co ≠ .ok) :
    init_result env co = .ok ⟨none, false⟩ ∧
    (∀ e c, ∃ s0, init_result e c = .ok s0) ∧
    ∀ co', ensure_connection env co' ⟨none, false⟩ =
      ((connect env co' ⟨none, false⟩).1,
        (connect env co' ⟨none, false⟩).2.map fun _ => ()) := by
  rcases env with ⟨a, b⟩
  simp only at ha hh
  subst ha
  subst hh
  refine ⟨?_, ?_, ?_⟩
  · cases co with
    | ok => exact absurd rfl hco
    | notConnected => rfl
    | snap7Exn => rfl
    | otherExn => rfl
  · intro e c
    rcases init_result_cases e c with h | h | h <;> exact ⟨_, h⟩
  · intro co'
    cases co' <;> rfl

/-- Witness for C10: snap7 available, host configured, transport raising. -/
theorem init_catches_connect_failure_witness :
    init_result ⟨true, true⟩ .snap7Exn = .ok ⟨none, false⟩ ∧
    (∀ e c, ∃ s0, init_result e c = .ok s0) ∧
    ∀ co', ensure_connection ⟨true, true⟩ co' ⟨none, false⟩ =
      ((connect ⟨true, true⟩ co' ⟨none, false⟩).1,
        (connect ⟨true, true⟩ co' ⟨none, false⟩).2.map fun _ => ()) :=
  init_catches_connect_failure ⟨true, true⟩ .snap7Exn rfl rfl (by simp)

theorem connect_sim (env : Env) (co : ConnectOutcome) (s : PLCState)
    (hh : env.hostConfigured = false) (hs : s.is_connected = false) :
    connect env co s = ({ s with is_connected := true }, .ok true) := by
  simp [connect, hs, hh]

theorem ensure_connection_sim (env : Env) (co : ConnectOutcome) (s : PLCState)
    (hh : env.hostConfigured = false) :
    ensure_connection env co s = ({ s with is_connected := true }, .ok ()) := by
  rcases s with ⟨c, b⟩
  cases b
  · rw [ensure_connection]
    rw [connect_sim env co ⟨c, false⟩ hh rfl]
    simp
  · simp [ensure_connection]

theorem read_db_sim (env : Env) (co : ConnectOutcome) (fault : Bool) (dev : Mem)
    (s : PLCState) (db start size : Nat)
    (hh : env.hostConfigured = false) (hc : s.client = none) :
    read_db env co fault dev s db start size = (⟨none, true⟩, .ok (List.replicate size 0)) := by
  rcases s with ⟨c, b⟩
  simp only at hc
  subst hc
  rw [read_db, ensure_connection_sim env co ⟨none, b⟩ hh]
  simp

theorem write_db_sim (env : Env) (co : ConnectOutcome) (fault : Bool) (dev : Mem)
    (s : PLCState) (db start : Nat) (data : List Nat)
    (hh : env.hostConfigured = false) (hc : s.client = none) :
    write_db env co fault dev s db start data = ((⟨none, true⟩, dev), .ok true) := by
  rcases s with ⟨c, b⟩
  simp only at hc
  subst hc
  rw [write_db, ensure_connection_sim env co ⟨none, b⟩ hh]
  simp

theorem read_m_sim (env : Env) (co : ConnectOutcome) (fault : Bool) (mmem : Nat → Nat)
    (s : PLCState) (start size : Nat)
    (hh : env.hostConfigured = false) (hc : s.client = none) :
    read_m env co fault mmem s start size = (⟨none, true⟩, .ok (List.replicate size 0)) := by
  rcases s with ⟨c, b⟩
  simp only at hc
  subst hc
  rw [read_m, ensure_connection_sim env co ⟨none, b⟩ hh]
  simp

theorem write_m_sim (env : Env) (co : ConnectOutcome) (fault : Bool) (mmem : Nat → Nat)
    (s : PLCState) (start : Nat) (data : List Nat)
    (hh : env.hostConfigured = false) (hc : s.client = none) :
    write_m env co fault mmem s start data = ((⟨none, true⟩, mmem), .ok true) := by
  rcases s with ⟨c, b⟩
  simp only at hc
  subst hc
  rw [write_m, ensure_connection_sim env co ⟨none, b⟩ hh]
  simp

/-- C2: with no host configured every operation is simulated, whatever the
transport outcome or fault flag: every raw read yields a zero-filled buffer
of the requested length, `read_bool` yields `false`, `read_int` yields `0`,
`read_real` yields `0.0` (bit pattern `0`), every write reports `true`
without touching any device memory, and no operation returns an error. -/
theorem simulated_zero_values (env : Env) (co : ConnectOutcome) (fault : Bool)
    (dev : Mem) (mmem : Nat → Nat) (s : PLCState) (db start size bit : Nat)
    (data : List Nat) (v : Bool) (iv : Int) (p : Nat)
    (hh : env.hostConfigured = false) (hc : s.client = none) :
    read_db env co fault dev s db start size = (⟨none, true⟩, .ok (List.replicate size 0)) ∧
    read_m env co fault mmem s start size = (⟨none, true⟩, .ok (List.replicate size 0)) ∧
    read_bool env co fault dev s db start bit = (⟨none, true⟩, .ok false) ∧
    read_int env co fault dev s db start = (⟨none, true⟩, .ok 0) ∧
    read_real env co fault dev s db start = (⟨none, true⟩, .ok 0) ∧
    write_db env co fault dev s db start data = ((⟨none, true⟩, dev), .ok true) ∧
    write_m env co fault mmem s start data = ((⟨none, true⟩, mmem), .ok true) ∧
    write_bool env co fault dev s db start bit v = ((⟨none, true⟩, dev), .ok true) ∧
    write_int env co fault dev s db start iv = ((⟨none, true⟩, dev), .ok true) ∧
    write_real env co fault dev s db start p = ((⟨none, true⟩, dev), .ok true) := by
  refine ⟨read_db_sim env co fault dev s db start size hh hc,
    read_m_sim env co fault mmem s start size hh hc, ?_, ?_, ?_,
    write_db_sim env co fault dev s db start data hh hc,
    write_m_sim env co fault mmem s start data hh hc, ?_, ?_, ?_⟩
  · rw [read_bool, read_db_sim env co fault dev s db start 1 hh hc]
    simp [get_bool]
  · rw [read_int, read_db_sim env co fault dev s db start 2 hh hc]
    simp [get_int]
  · rw [read_real, read_db_sim env co fault dev s db start 4 hh hc]
    simp [get_real]
  · rw [write_bool, read_db_sim env co fault dev s db start 1 hh hc]
    exact write_db_sim env co fault dev ⟨none, true⟩ db start _ hh rfl
  · rw [write_int]
    exact write_db_sim env co fault dev s db start _ hh hc
  · rw [write_real]
    exact write_db_sim env co fault dev s db start _ hh hc

/-- Witness for C2 at a concrete no-host configuration. -/
theorem simulated_zero_values_witness :
    read_db ⟨true, false⟩ .ok true (fun _ _ => 9) ⟨none, false⟩ 1 0 3 =
      (⟨none, true⟩, .ok (List.replicate 3 0)) ∧
    read_m ⟨true, false⟩ .ok true (fun _ => 9) ⟨none, false⟩ 0 3 =
      (⟨none, true⟩, .ok (List.replicate 3 0)) ∧
    read_bool ⟨true, false⟩ .ok true (fun _ _ => 9) ⟨none, false⟩ 1 0 5 =
      (⟨none, true⟩, .ok false) ∧
    read_int ⟨true, false⟩ .ok true (fun _ _ => 9) ⟨none, false⟩ 1 0 =
      (⟨none, true⟩, .ok 0) ∧
    read_real ⟨true, false⟩ .ok true (fun _ _ => 9) ⟨none, false⟩ 1 0 =
      (⟨none, true⟩, .ok 0) ∧
    write_db ⟨true, false⟩ .ok true (fun _ _ => 9) ⟨none, false⟩ 1 0 [171] =
      ((⟨none, true⟩, fun _ _ => 9), .ok true) ∧
    write_m ⟨true, false⟩ .ok true (fun _ => 9) ⟨none, false⟩ 0 [171] =
      ((⟨none, true⟩, fun _ => 9), .ok true) ∧
    write_bool ⟨true, false⟩ .ok true (fun _ _ => 9) ⟨none, false⟩ 1 0 5 true =
      ((⟨none, true⟩, fun _ _ => 9), .ok true) ∧
    write_int ⟨true, false⟩ .ok true (fun _ _ => 9) ⟨none, false⟩ 1 0 (-7) =
      ((⟨none, true⟩, fun _ _ => 9), .ok true) ∧
    write_real ⟨true, false⟩ .ok true (fun _ _ => 9) ⟨none, false⟩ 1 0 1078530011 =
      ((⟨none, true⟩, fun _ _ => 9), .ok true) :=
  simulated_zero_values ⟨true, false⟩ .ok true (fun _ _ => 9) (fun _ => 9)
    ⟨none, false⟩ 1 0 3 5 [171] true (-7) 1078530011 rfl rfl

/-- C1 counterexample: `read_bool(db=1, byte_offset=0, bit_offset=8)` does
not raise — in the no-host configuration the call completes normally and
returns `false` (the byte read happens first and bit 8 of a byte is never
set); the source performs no address validation and defines no
validation-error exception at all (its only exception classes are
`PLCConnectionError` and `PLCReadWriteError`). -/
theorem read_bool_bit8_no_error :
    read_bool ⟨true, false⟩ .ok false (fun _ _ => 0) ⟨none, true⟩ 1 0 8 =
      (⟨none, true⟩, .ok false) := rfl

/-- C1 amended: no address validation happens in the façade: the malformed
call `read_bool(db=1, byte_offset=0, bit_offset=8)` is not rejected before
the transport is used.  While connected to a real transport the one-byte
read is performed — a transport fault there surfaces as
`PLCReadWriteError` — and a fault-free read returns `false`, because bit 8
of the byte read is never set.  No `ValidationError` exists in the source. -/
theorem read_bool_bit8_amended (env : Env) (co : ConnectOutcome) (dev : Mem)
    (s : PLCState) (ha : env.snap7Available = true) (hs : s.is_connected = true)
    (hc : s.client ≠ none) :
    read_bool env co true dev s 1 0 8 = (s, .error .readWriteError) ∧
    read_bool env co false dev s 1 0 8 = (s, .ok false) := by
  constructor
  · rw [read_bool, read_db_connected env co true dev s 1 0 1 ha hs hc]
    simp
  · rw [read_bool, read_db_connected env co false dev s 1 0 1 ha hs hc]
    simp [ha, get_bool, List.range_succ]
    exact Nat.testBit_lt_two_pow (Nat.mod_lt _ (by norm_num))

/-- Witness for C1's amended theorem at a concrete connected state. -/
theorem read_bool_bit8_amended_witness :
    read_bool ⟨true, true⟩ .ok true (fun _ _ => 171) ⟨some 0, true⟩ 1 0 8 =
      (⟨some 0, true⟩, .error .readWriteError) ∧
    read_bool ⟨true, true⟩ .ok false (fun _ _ => 171) ⟨some 0, true⟩ 1 0 8 =
      (⟨some 0, true⟩, .ok false) :=
  read_bool_bit8_amended ⟨true, true⟩ .ok (fun _ _ => 171) ⟨some 0, true⟩ rfl rfl
    (by simp)

theorem read_m_connected (env : Env) (co : ConnectOutcome) (fault : Bool)
    (mmem : Nat → Nat) (s : PLCState) (start size : Nat)
    (ha : env.snap7Available = true) (hs : s.is_connected = true) (hc : s.client ≠ none) :
    read_m env co fault mmem s start size =
      if fault then (s, .error .readWriteError)
      else (s, .ok ((List.range size).map fun i => mmem (start + i) % 256)) := by
  rw [read_m, ensure_connection_of_connected env co s hs]
  simp [ha, hs, hc]

theorem write_m_connected (env : Env) (co : ConnectOutcome) (fault : Bool)
    (mmem : Nat → Nat) (s : PLCState) (start : Nat) (data : List Nat)
    (ha : env.snap7Available = true) (hs : s.is_connected = true) (hc : s.client ≠ none) :
    write_m env co fault mmem s start data =
      if fault then ((s, mmem), .error .readWriteError)
      else ((s, mWriteMem mmem start data), .ok true) := by
  rw [write_m, ensure_connection_of_connected env co s hs]
  simp [ha, hs, hc]

/-- C7: while connected to a real transport, a transport fault during any
read or write operation surfaces as `PLCReadWriteError` and leaves the
connection state exactly as it was: the same `is_connected` flag and the
same client handle (the whole state `s` is returned unchanged), and no
device memory is modified. -/
theorem fault_keeps_connected (env : Env) (co : ConnectOutcome) (dev : Mem)
    (mmem : Nat → Nat) (s : PLCState) (db start size bit : Nat) (data : List Nat)
    (v : Bool) (iv : Int) (p : Nat)
    (ha : env.snap7Available = true) (hs : s.is_connected = true) (hc : s.client ≠ none) :
    read_db env co true dev s db start size = (s, .error .readWriteError) ∧
    write_db env co true dev s db start data = ((s, dev), .error .readWriteError) ∧
    read_m env co true mmem s start size = (s, .error .readWriteError) ∧
    write_m env co true mmem s start data = ((s, mmem), .error .readWriteError) ∧
    read_bool env co true dev s db start bit = (s, .error .readWriteError) ∧
    read_int env co true dev s db start = (s, .error .readWriteError) ∧
    read_real env co true dev s db start = (s, .error .readWriteError) ∧
    write_bool env co true dev s db start bit v = ((s, dev), .error .readWriteError) ∧
    write_int env co true dev s db start iv = ((s, dev), .error .readWriteError) ∧
    write_real env co true dev s db start p = ((s, dev), .error .readWriteError) := by
  refine ⟨?_, ?_, ?_, ?_, ?_, ?_, ?_, ?_, ?_, ?_⟩
  · rw [read_db_connected env co true dev s db start size ha hs hc]; simp
  · rw [write_db_connected env co true dev s db start data ha hs hc]; simp
  · rw [read_m_connected env co true mmem s start size ha hs hc]; simp
  · rw [write_m_connected env co true mmem s start data ha hs hc]; simp
  · rw [read_bool, read_db_connected env co true dev s db start 1 ha hs hc]; simp
  · rw [read_int, read_db_connected env co true dev s db start 2 ha hs hc]; simp
  · rw [read_real, read_db_connected env co true dev s db start 4 ha hs hc]; simp
  · rw [write_bool, read_db_connected env co true dev s db start 1 ha hs hc]; simp
  · unfold write_int
    rw [write_db_connected env co true dev s db start _ ha hs hc]; simp
  · unfold write_real
    rw [write_db_connected env co true dev s db start _ ha hs hc]; simp

/-- Witness for C7 at a concrete connected state. -/
theorem fault_keeps_connected_witness :
    read_db ⟨true, true⟩ .ok true (fun _ _ => 171) ⟨some 0, true⟩ 1 0 2 =
      (⟨some 0, true⟩, .error .readWriteError) ∧
    write_db ⟨true, true⟩ .ok true (fun _ _ => 171) ⟨some 0, true⟩ 1 0 [7] =
      ((⟨some 0, true⟩, fun _ _ => 171), .error .readWriteError) ∧
    read_m ⟨true, true⟩ .ok true (fun _ => 171) ⟨some 0, true⟩ 0 2 =
      (⟨some 0, true⟩, .error .readWriteError) ∧
    write_m ⟨true, true⟩ .ok true (fun _ => 171) ⟨some 0, true⟩ 0 [7] =
      ((⟨some 0, true⟩, fun _ => 171), .error .readWriteError) ∧
    read_bool ⟨true, true⟩ .ok true (fun _ _ => 171) ⟨some 0, true⟩ 1 0 3 =
      (⟨some 0, true⟩, .error .readWriteError) ∧
    read_int ⟨true, true⟩ .ok true (fun _ _ => 171) ⟨some 0, true⟩ 1 0 =
      (⟨some 0, true⟩, .error .readWriteError) ∧
    read_real ⟨true, true⟩ .ok true (fun _ _ => 171) ⟨some 0, true⟩ 1 0 =
      (⟨some 0, true⟩, .error .readWriteError) ∧
    write_bool ⟨true, true⟩ .ok true (fun _ _ => 171) ⟨some 0, true⟩ 1 0 3 true =
      ((⟨some 0, true⟩, fun _ _ => 171), .error .readWriteError) ∧
    write_int ⟨true, true⟩ .ok true (fun _ _ => 171) ⟨some 0, true⟩ 1 0 5 =
      ((⟨some 0, true⟩, fun _ _ => 171), .error .readWriteError) ∧
    write_real ⟨true, true⟩ .ok true (fun _ _ => 171) ⟨some 0, true⟩ 1 0 7 =
      ((⟨some 0, true⟩, fun _ _ => 171), .error .readWriteError) :=
  fault_keeps_connected ⟨true, true⟩ .ok (fun _ _ => 171) (fun _ => 171)
    ⟨some 0, true⟩ 1 0 2 3 [7] true 5 7 rfl rfl (by simp)

theorem read_bool_connected_eval (env : Env) (co : ConnectOutcome) (dev : Mem)
    (s : PLCState) (db off j : Nat)
    (ha : env.snap7Available = true) (hs : s.is_connected = true) (hc : s.client ≠ none) :
    read_bool env co false dev s db off j = (s, .ok ((dev db off % 256).testBit j)) := by
  rw [read_bool, read_db_connected env co false dev s db off 1 ha hs hc]
  simp [ha, get_bool, List.range_succ]

theorem dbWriteMem_single_at (dev : Mem) (db off x : Nat) :
    dbWriteMem dev db off [x] db off = x % 256 := by
  simp [dbWriteMem]

/-- C3: bit round-trip with bit isolation, while connected to a real,
fault-free transport: for every valid address (`bit_offset ≤ 7`) and value
`v`, `write_bool` succeeds, a `read_bool` of the same bit afterwards
returns exactly `v`, and every other bit of that byte, read independently
before and after the write, is unchanged. -/
theorem write_bool_roundtrip (env : Env) (co : ConnectOutcome) (dev : Mem)
    (s : PLCState) (db off bit : Nat) (v : Bool)
    (ha : env.snap7Available = true) (hs : s.is_connected = true)
    (hc : s.client ≠ none) (hbit : bit ≤ 7) :
    (write_bool env co false dev s db off bit v).2 = .ok true ∧
    (read_bool env co false (write_bool env co false dev s db off bit v).1.2
        s db off bit).2 = .ok v ∧
    ∀ i, i ≤ 7 → i ≠ bit →
      (read_bool env co false (write_bool env co false dev s db off bit v).1.2
          s db off i).2 =
      (read_bool env co false dev s db off i).2 := by
  have hb : dev db off % 256 < 256 := Nat.mod_lt _ (by norm_num)
  have hbit8 : bit < 8 := by omega
  have hlt : set_bool_byte (dev db off % 256) bit v < 256 := set_bool_byte_lt hb hbit8 v
  have hwb : write_bool env co false dev s db off bit v =
      ((s, dbWriteMem dev db off [set_bool_byte (dev db off % 256) bit v]), .ok true) := by
    rw [write_bool, read_db_connected env co false dev s db off 1 ha hs hc]
    simp only [Bool.false_eq_true, if_false]
    rw [write_db_connected env co false dev s db off _ ha hs hc]
    simp [write_bool_encode, set_bool, ha, List.range_succ]
  refine ⟨by rw [hwb], ?_, ?_⟩
  · rw [hwb]
    dsimp only
    rw [read_bool_connected_eval env co _ s db off bit ha hs hc,
      dbWriteMem_single_at dev db off _]
    rw [Nat.mod_eq_of_lt hlt, Nat.mod_eq_of_lt hlt]
    rw [set_bool_byte_testBit_same hb hbit8 v]
  · intro i hi hne
    rw [hwb]
    dsimp only
    rw [read_bool_connected_eval env co _ s db off i ha hs hc,
      read_bool_connected_eval env co dev s db off i ha hs hc,
      dbWriteMem_single_at dev db off _]
    rw [Nat.mod_eq_of_lt hlt, Nat.mod_eq_of_lt hlt]
    rw [set_bool_byte_testBit_other hb hbit8 (by omega : i < 8) hne v]

/-- Witness for C3: write bit 3 of DB1 byte 0 as `true` on a device whose
byte there is 0xAA. -/
theorem write_bool_roundtrip_witness :
    (write_bool ⟨true, true⟩ .ok false (fun _ _ => 170) ⟨some 0, true⟩ 1 0 3 true).2 =
      .ok true ∧
    (read_bool ⟨true, true⟩ .ok false
        (write_bool ⟨true, true⟩ .ok false (fun _ _ => 170) ⟨some 0, true⟩ 1 0 3 true).1.2
        ⟨some 0, true⟩ 1 0 3).2 = .ok true ∧
    ∀ i, i ≤ 7 → i ≠ 3 →
      (read_bool ⟨true, true⟩ .ok false
          (write_bool ⟨true, true⟩ .ok false (fun _ _ => 170) ⟨some 0, true⟩ 1 0 3 true).1.2
          ⟨some 0, true⟩ 1 0 i).2 =
      (read_bool ⟨true, true⟩ .ok false (fun _ _ => 170) ⟨some 0, true⟩ 1 0 i).2 :=
  write_bool_roundtrip ⟨true, true⟩ .ok (fun _ _ => 170) ⟨some 0, true⟩ 1 0 3 true
    rfl rfl (by simp) (by omega)

theorem read_int_connected_eval (env : Env) (co : ConnectOutcome) (dev : Mem)
    (s : PLCState) (db off : Nat)
    (ha : env.snap7Available = true) (hs : s.is_connected = true) (hc : s.client ≠ none) :
    read_int env co false dev s db off =
      (s, .ok (get_int [dev db off % 256, dev db (off + 1) % 256] 0)) := by
  rw [read_int, read_db_connected env co false dev s db off 2 ha hs hc]
  simp [ha, List.range_succ]

theorem dbWriteMem_pair_at0 (dev : Mem) (db off a b : Nat) :
    dbWriteMem dev db off [a, b] db off = a % 256 := by
  simp [dbWriteMem]

theorem dbWriteMem_pair_at1 (dev : Mem) (db off a b : Nat) :
    dbWriteMem dev db off [a, b] db (off + 1) = b % 256 := by
  unfold dbWriteMem
  rw [if_pos ⟨rfl, by omega, by simp⟩]
  have h1 : off + 1 - off = 1 := by omega
  rw [h1]
  rfl

/-- C8: INT16 round-trip, while connected to a real, fault-free transport:
for every `v` in `[-32768, 32767]`, `write_int` succeeds, a `read_int` at
the same address returns exactly `v`, and the two device bytes hold the
big-endian two's-complement encoding (`(v mod 2^16) / 256` then
`(v mod 2^16) % 256`). -/
theorem write_int_roundtrip (env : Env) (co : ConnectOutcome) (dev : Mem)
    (s : PLCState) (db off : Nat) (v : Int)
    (ha : env.snap7Available = true) (hs : s.is_connected = true)
    (hc : s.client ≠ none) (h1 : -32768 ≤ v) (h2 : v ≤ 32767) :
    (write_int env co false dev s db off v).2 = .ok true ∧
    (read_int env co false (write_int env co false dev s db off v).1.2 s db off).2 =
      .ok v ∧
    (write_int env co false dev s db off v).1.2 db off = (v % 65536).toNat / 256 ∧
    (write_int env co false dev s db off v).1.2 db (off + 1) = (v % 65536).toNat % 256 := by
  have hset : set_int [0, 0] 0 v =
      [(v % 65536).toNat / 256, (v % 65536).toNat % 256] := rfl
  have hwi : write_int env co false dev s db off v =
      ((s, dbWriteMem dev db off [(v % 65536).toNat / 256, (v % 65536).toNat % 256]),
        .ok true) := by
    unfold write_int
    rw [write_db_connected env co false dev s db off _ ha hs hc]
    simp [ha, hset]
  refine ⟨by rw [hwi], ?_, ?_, ?_⟩
  · rw [hwi]
    dsimp only
    rw [read_int_connected_eval env co _ s db off ha hs hc,
      dbWriteMem_pair_at0, dbWriteMem_pair_at1]
    simp only [get_int, List.getD_cons_zero, List.getD_cons_succ, Nat.zero_add,
      Except.ok.injEq, Prod.mk.injEq]
    split <;> omega
  · rw [hwi]
    dsimp only
    rw [dbWriteMem_pair_at0]
    omega
  · rw [hwi]
    dsimp only
    rw [dbWriteMem_pair_at1]
    omega

/-- Witness for C8 at `v = -12345`. -/
theorem write_int_roundtrip_witness :
    (write_int ⟨true, true⟩ .ok false (fun _ _ => 170) ⟨some 0, true⟩ 1 10 (-12345)).2 =
      .ok true ∧
    (read_int ⟨true, true⟩ .ok false
        (write_int ⟨true, true⟩ .ok false (fun _ _ => 170) ⟨some 0, true⟩ 1 10 (-12345)).1.2
        ⟨some 0, true⟩ 1 10).2 = .ok (-12345) ∧
    (write_int ⟨true, true⟩ .ok false (fun _ _ => 170) ⟨some 0, true⟩ 1 10 (-12345)).1.2
        1 10 = ((-12345 : Int) % 65536).toNat / 256 ∧
    (write_int ⟨true, true⟩ .ok false (fun _ _ => 170) ⟨some 0, true⟩ 1 10 (-12345)).1.2
        1 11 = ((-12345 : Int) % 65536).toNat % 256 :=
  write_int_roundtrip ⟨true, true⟩ .ok (fun _ _ => 170) ⟨some 0, true⟩ 1 10 (-12345)
    rfl rfl (by simp) (by norm_num) (by norm_num)

/-- C4: the read-modify-write encode step of `write_bool` is defensive: on
an empty buffer it behaves exactly as on the one-byte all-zero buffer —
the missing byte is treated as all-zero — and it totally completes,
producing a one-byte buffer, for every `bit_offset` and value, in every
environment. -/
theorem write_bool_encode_defensive (env : Env) (bit : Nat) (v : Bool) :
    write_bool_encode env [] bit v = write_bool_encode env [0] bit v ∧
    write_bool_encode env [] bit v =
      (if env.snap7Available then [set_bool_byte 0 bit v] else [0]) ∧
    (write_bool_encode env [] bit v).length = 1 := by
  refine ⟨rfl, ?_, ?_⟩
  · simp [write_bool_encode, set_bool]
  · rcases h : env.snap7Available <;> simp [write_bool_encode, set_bool, h]
